import Mathlib

/-!
Verification of the `similarityEngine.js` property-comparison engine.

The engine (file `src/similarityEngine.js`) finds, for a target real-estate
parcel, the most similar parcels in the same legal subdivision.  We embed the
pure core of `getSimilarProperties` (everything after the two data fetches):
configuration resolution (`customAlgo` merge), the candidate filter, the
similarity scorer with the optional price bias, and the ranker.

Numbers are modelled by `ℚ` (an idealisation of JS number arithmetic over the
exact values the claims concern).  A candidate field that may be absent is an
`Option ℚ`; the JS truthiness test `r.field && ...` becomes "present and
non-zero".  `JSON.parse` is external to the core, so the resolver is
parameterised by a parse function `String → Option AlgoOverride` where `none`
models a parse failure (a thrown exception caught by the `try`/`catch`).
-/

namespace SimilarityEngine

/-- A candidate parcel as returned by the data provider
(`propid, imprvmainarea, prevvalmarket, prevvalland, imprvyearbuilt`).
Numeric fields may be absent (`none`), mirroring missing JSON fields. -/
structure PropertyRecord where
  propid : String
  imprvmainarea : Option ℚ
  prevvalmarket : Option ℚ
  prevvalland : Option ℚ
  imprvyearbuilt : Option ℚ
deriving DecidableEq, Repr

/-- The target parcel (`targetData[0]` in the source): the four scoring
attributes plus the subdivision code. -/
structure TargetRecord where
  imprvmainarea : ℚ
  prevvalmarket : ℚ
  prevvalland : ℚ
  imprvyearbuilt : ℚ
  legalabssubcode : String
deriving DecidableEq, Repr

/-- The `weights` configuration group. -/
structure Weights where
  area : ℚ
  market : ℚ
  land : ℚ
  year : ℚ
deriving DecidableEq, Repr

/-- The `cutoffs` configuration group. -/
structure Cutoffs where
  areaPct : ℚ
  marketPct : ℚ
  landPct : ℚ
  yearDiff : ℚ
deriving DecidableEq, Repr

/-- The `priceBias` configuration group. -/
structure PriceBias where
  enabled : Bool
  weight : ℚ
  fullBiasAt : ℚ
deriving DecidableEq, Repr

/-- A full algorithm configuration: the three groups. -/
structure AlgorithmConfig where
  weights : Weights
  cutoffs : Cutoffs
  priceBias : PriceBias
deriving DecidableEq, Repr

/-- The hardcoded fallback defaults from `loadDefaultAlgo`. -/
def fallbackDefaults : AlgorithmConfig :=
  ⟨⟨4/10, 2/10, 1/10, 3/10⟩, ⟨1/10, 2/10, 3/10, 10⟩, ⟨true, 15/100, 50⟩⟩

/-- A caller override of the `weights` group: each key optionally present. -/
structure WeightsOverride where
  area : Option ℚ
  market : Option ℚ
  land : Option ℚ
  year : Option ℚ
deriving DecidableEq, Repr

/-- A caller override of the `cutoffs` group: each key optionally present. -/
structure CutoffsOverride where
  areaPct : Option ℚ
  marketPct : Option ℚ
  landPct : Option ℚ
  yearDiff : Option ℚ
deriving DecidableEq, Repr

/-- A caller override of the `priceBias` group: each key optionally present. -/
structure PriceBiasOverride where
  enabled : Option Bool
  weight : Option ℚ
  fullBiasAt : Option ℚ
deriving DecidableEq, Repr

/-- A parsed `customAlgo` object: the three groups, each optionally present. -/
structure AlgoOverride where
  weights : Option WeightsOverride
  cutoffs : Option CutoffsOverride
  priceBias : Option PriceBiasOverride
deriving DecidableEq, Repr

/-- The `options.customAlgo` input: a JSON object or a JSON string. -/
inductive CustomAlgo where
  | obj (o : AlgoOverride)
  | str (s : String)
deriving DecidableEq, Repr

/-- JS spread `\x7b...weights, ...algo.weights\x7d`: keys present in the
override win, absent keys keep the base value. -/
def mergeWeights (b : Weights) (o : WeightsOverride) : Weights :=
  ⟨o.area.getD b.area, o.market.getD b.market, o.land.getD b.land, o.year.getD b.year⟩

/-- JS spread `\x7b...cutoffs, ...algo.cutoffs\x7d`. -/
def mergeCutoffs (b : Cutoffs) (o : CutoffsOverride) : Cutoffs :=
  ⟨o.areaPct.getD b.areaPct, o.marketPct.getD b.marketPct,
   o.landPct.getD b.landPct, o.yearDiff.getD b.yearDiff⟩

/-- JS spread `\x7b...priceBias, ...algo.priceBias\x7d`. -/
def mergePriceBias (b : PriceBias) (o : PriceBiasOverride) : PriceBias :=
  ⟨o.enabled.getD b.enabled, o.weight.getD b.weight, o.fullBiasAt.getD b.fullBiasAt⟩

/-- The parse step inside the `try` block: an object passes through, a string
goes through `JSON.parse`, modelled by the supplied parse function, `none`
meaning a parse failure (thrown exception). -/
def parseCustom (parseJSON : String → Option AlgoOverride) : CustomAlgo → Option AlgoOverride
  | CustomAlgo.obj o => some o
  | CustomAlgo.str s => parseJSON s

/-- Result of configuration resolution: the resolved config plus whether the
`console.warn` in the `catch` block fired. -/
structure ResolveResult where
  config : AlgorithmConfig
  warned : Bool
deriving DecidableEq, Repr

/-- Lines 36–53 of the source: start from the defaults; if `options.customAlgo`
is present, parse it and shallow-merge each group that it carries; on parse
failure warn and keep the defaults unchanged.  A total function: no exception
escapes (the JS `catch` swallows the parse error). -/
def resolveConfig (parseJSON : String → Option AlgoOverride)
    (base : AlgorithmConfig) (customAlgo : Option CustomAlgo) : ResolveResult :=
  match customAlgo with
  | none => ⟨base, false⟩
  | some ca =>
    match parseCustom parseJSON ca with
    | none => ⟨base, true⟩
    | some algo =>
      ⟨⟨(match algo.weights with
         | some w => mergeWeights base.weights w
         | none => base.weights),
        (match algo.cutoffs with
         | some c => mergeCutoffs base.cutoffs c
         | none => base.cutoffs),
        (match algo.priceBias with
         | some p => mergePriceBias base.priceBias p
         | none => base.priceBias)⟩, false⟩

/-- Line 33 of the source: `const LIMIT = options.limit || 10`, restricted to
an absent or natural-number limit.  A falsy limit (absent, or the number 0)
falls back to 10.  `resolveLimitQ` below models the same line for an
arbitrary numeric limit. -/
def resolveLimit (limit : Option ℕ) : ℕ :=
  match limit with
  | none => 10
  | some n => if n = 0 then 10 else n

/-- Line 33 of the source for an arbitrary numeric limit: a falsy limit
(absent, or the number 0) falls back to 10, every other number — fractional
or negative included — survives the `||` gate unchanged. -/
def resolveLimitQ (limit : Option ℚ) : ℚ :=
  match limit with
  | none => 10
  | some q => if q = 0 then 10 else q

/-- ECMA `ToIntegerOrInfinity` on a finite number: truncation toward zero. -/
def jsTrunc (q : ℚ) : ℤ :=
  if 0 ≤ q then ⌊q⌋ else ⌈q⌉

/-- `Array.prototype.slice(0, k)` for a numeric `k`: the end index is the
truncation of `k`, counted from the end when negative, clamped to
`[0, length]`. -/
def jsSlice {α : Type _} (k : ℚ) (l : List α) : List α :=
  let e : ℤ := jsTrunc k
  let stop : ℤ := if e < 0 then max ((l.length : ℤ) + e) 0 else min e (l.length : ℤ)
  l.take stop.toNat

/-- Lines 22–24 of the source: `relDiff(a, b) = |a - b| / max(a, b)`. -/
def relDiff (a b : ℚ) : ℚ :=
  |a - b| / max a b

/-- JS truthiness of an optional numeric field: present and non-zero. -/
def truthy (x : Option ℚ) : Bool :=
  match x with
  | none => false
  | some v => decide (v ≠ 0)

/-- Lines 76–82 of the source: the candidate filter predicate.  All four
fields truthy, the three relative differences within their cutoffs, and the
absolute year difference within `yearDiff`. -/
def passesFilter (cutoffs : Cutoffs) (t : TargetRecord) (r : PropertyRecord) : Bool :=
  truthy r.imprvmainarea && truthy r.prevvalmarket &&
  truthy r.prevvalland && truthy r.imprvyearbuilt &&
  decide (relDiff (r.imprvmainarea.getD 0) t.imprvmainarea ≤ cutoffs.areaPct) &&
  decide (relDiff (r.prevvalmarket.getD 0) t.prevvalmarket ≤ cutoffs.marketPct) &&
  decide (relDiff (r.prevvalland.getD 0) t.prevvalland ≤ cutoffs.landPct) &&
  decide (|r.imprvyearbuilt.getD 0 - t.imprvyearbuilt| ≤ cutoffs.yearDiff)

/-- The `.filter(...)` call of the source pipeline. -/
def filterCandidates (cutoffs : Cutoffs) (t : TargetRecord)
    (candidates : List PropertyRecord) : List PropertyRecord :=
  candidates.filter (passesFilter cutoffs t)

/-- Lines 70–72 of the source: the availability factor, computed once per
request from the PRE-filter candidate count; `0` when the bias is disabled. -/
def availabilityFactor (pb : PriceBias) (candidateCount : ℕ) : ℚ :=
  if pb.enabled then min 1 ((candidateCount : ℚ) / pb.fullBiasAt) else 0

/-- A scored candidate: the record plus `similarity`, `baseSimilarity` and the
`priceBias` contribution, as spread into the result object on line 98. -/
structure ScoredCandidate where
  record : PropertyRecord
  similarity : ℚ
  baseSimilarity : ℚ
  priceBias : ℚ
deriving DecidableEq, Repr

/-- Lines 83–98 of the source: score one (already filtered) candidate. -/
def scoreCandidate (w : Weights) (pb : PriceBias) (af : ℚ)
    (t : TargetRecord) (r : PropertyRecord) : ScoredCandidate :=
  let baseSimilarity :=
    w.area * relDiff (r.imprvmainarea.getD 0) t.imprvmainarea +
    w.market * relDiff (r.prevvalmarket.getD 0) t.prevvalmarket +
    w.land * relDiff (r.prevvalland.getD 0) t.prevvalland +
    w.year * (|r.imprvyearbuilt.getD 0 - t.imprvyearbuilt| / 100)
  let priceBiasValue :=
    if pb.enabled then max 0 (r.prevvalmarket.getD 0 / t.prevvalmarket - 1) else 0
  ⟨r, baseSimilarity + af * pb.weight * priceBiasValue, baseSimilarity, priceBiasValue⟩

/-- The comparator of line 100, `(a, b) => a.similarity - b.similarity`, as the
ordering relation it realises: ascending by `similarity`. -/
def simLE (a b : ScoredCandidate) : Prop :=
  a.similarity ≤ b.similarity

instance : DecidableRel simLE :=
  fun a b => inferInstanceAs (Decidable (a.similarity ≤ b.similarity))

instance : IsTotal ScoredCandidate simLE :=
  ⟨fun a b => le_total a.similarity b.similarity⟩

instance : IsTrans ScoredCandidate simLE :=
  ⟨fun _ _ _ h h2 => le_trans h h2⟩

/-- Lines 100–101 of the source: the ranker.  JS `Array.prototype.sort` is a
stable sort; we model it by stable insertion sort, then `.slice(0, LIMIT)`. -/
def rankCandidates (limit : ℕ) (scored : List ScoredCandidate) : List ScoredCandidate :=
  (scored.insertionSort simLE).take limit

/-- The request's output object (lines 103–109 of the source). -/
structure ComparisonResult where
  target : TargetRecord
  legalabssubcode : String
  totalCandidates : ℕ
  filteredCandidates : ℕ
  comps : List ScoredCandidate
deriving DecidableEq, Repr

/-- The caller-supplied options that reach the pure core. -/
structure EngineOptions where
  propid : String
  limit : Option ℕ
  customAlgo : Option CustomAlgo
deriving DecidableEq, Repr

/-- The pure core of `getSimilarProperties`: everything after the two data
fetches, taking the fetched target and candidate list as inputs.  Note that
`filteredCandidates` is `scored.length` AFTER the `.slice(0, LIMIT)` on
line 101, exactly as on line 107 of the source. -/
def getSimilarProperties (defaultAlgo : AlgorithmConfig)
    (parseJSON : String → Option AlgoOverride) (options : EngineOptions)
    (t : TargetRecord) (candidates : List PropertyRecord) : ComparisonResult :=
  let LIMIT := resolveLimit options.limit
  let cfg := (resolveConfig parseJSON defaultAlgo options.customAlgo).config
  let af := availabilityFactor cfg.priceBias candidates.length
  let scored := rankCandidates LIMIT
    ((filterCandidates cfg.cutoffs t candidates).map
      (scoreCandidate cfg.weights cfg.priceBias af t))
  ⟨t, t.legalabssubcode, candidates.length, scored.length, scored⟩

/-- The caller-supplied options with the limit as an arbitrary JS number. -/
structure EngineOptionsJS where
  propid : String
  limit : Option ℚ
  customAlgo : Option CustomAlgo
deriving DecidableEq, Repr

/-- The pure core of `getSimilarProperties` with the full numeric semantics of
line 33 (`options.limit || 10`) and of `.slice(0, LIMIT)` on line 101: the
limit may be any number, and `slice` truncates it toward zero and clamps it,
counting from the end when negative.  `getSimilarProperties` above is the
restriction of this function to absent or natural-number limits. -/
def getSimilarPropertiesJS (defaultAlgo : AlgorithmConfig)
    (parseJSON : String → Option AlgoOverride) (options : EngineOptionsJS)
    (t : TargetRecord) (candidates : List PropertyRecord) : ComparisonResult :=
  let LIMIT := resolveLimitQ options.limit
  let cfg := (resolveConfig parseJSON defaultAlgo options.customAlgo).config
  let af := availabilityFactor cfg.priceBias candidates.length
  let scored := jsSlice LIMIT
    (((filterCandidates cfg.cutoffs t candidates).map
      (scoreCandidate cfg.weights cfg.priceBias af t)).insertionSort simLE)
  ⟨t, t.legalabssubcode, candidates.length, scored.length, scored⟩

/-! ### Demo values used by witnesses and counterexamples -/

/-- The target of the spec's worked scenario (§8). -/
def demoTarget : TargetRecord :=
  ⟨2000, 300000, 50000, 2005, "S1"⟩

/-- The candidate of the spec's worked scenario (§8). -/
def demoCand : PropertyRecord :=
  ⟨"c2", some 2050, some 310000, some 51000, some 2006⟩

/-- Eleven candidates identical to the target: all pass every cutoff. -/
def demoCands : List PropertyRecord :=
  List.replicate 11 ⟨"c", some 2000, some 300000, some 50000, some 2005⟩

/-! ### Helper lemmas -/

/-- Characterisation of JS truthiness of an optional field. -/
theorem truthy_iff (x : Option ℚ) : truthy x = true ↔ ∃ v, x = some v ∧ v ≠ 0 := by
  cases x <;> simp [truthy]

/-- C9: for positive `a, b`, `relDiff` is non-negative, strictly below 1,
zero on the diagonal, zero only at equality, and symmetric. -/
theorem relDiff_props (a b : ℚ) (ha : 0 < a) (hb : 0 < b) :
    0 ≤ relDiff a b ∧ relDiff a b < 1 ∧ relDiff a a = 0 ∧
    (relDiff a b = 0 ↔ a = b) ∧ relDiff a b = relDiff b a := by
  have hmax : 0 < max a b := lt_max_iff.mpr (Or.inl ha)
  refine ⟨div_nonneg (abs_nonneg _) hmax.le, ?_, ?_, ?_, ?_⟩
  · rw [relDiff, div_lt_one hmax]
    rw [abs_sub_lt_iff]
    constructor
    · calc a - b < a := by linarith
        _ ≤ max a b := le_max_left a b
    · calc b - a < b := by linarith
        _ ≤ max a b := le_max_right a b
  · simp [relDiff]
  · rw [relDiff, div_eq_zero_iff, abs_eq_zero, sub_eq_zero]
    constructor
    · rintro (h | h)
      · exact h
      · exact absurd h hmax.ne'
    · intro h
      exact Or.inl h
  · rw [relDiff, relDiff, abs_sub_comm, max_comm]

/-- C9 witness: the properties instantiated at `a = 3`, `b = 4`. -/
theorem relDiff_props_witness :
    0 ≤ relDiff 3 4 ∧ relDiff 3 4 < 1 ∧ relDiff 3 3 = 0 ∧
    (relDiff 3 4 = 0 ↔ (3 : ℚ) = 4) ∧ relDiff 3 4 = relDiff 4 3 :=
  relDiff_props 3 4 (by norm_num) (by norm_num)

/-- C2 (amended): when the price bias is enabled, the availability factor is
`min(1, candidateCount / fullBiasAt)`, with `candidateCount` the pre-filter
candidate count supplied by the engine; when the bias is disabled, the
availability factor is 0. -/
theorem availabilityFactor_cases (pb : PriceBias) (n : ℕ) :
    (pb.enabled = true →
      availabilityFactor pb n = min 1 ((n : ℚ) / pb.fullBiasAt)) ∧
    (pb.enabled = false → availabilityFactor pb n = 0) := by
  constructor
  · intro h
    simp [availabilityFactor, h]
  · intro h
    simp [availabilityFactor, h]

/-- C2 witness: with the bias enabled, `fullBiasAt = 50` and 25 raw
candidates, the availability factor is `0.5`; with the bias disabled and the
same 25 raw candidates it is 0. -/
theorem availabilityFactor_cases_witness :
    availabilityFactor ⟨true, 15/100, 50⟩ 25 = 1/2 ∧
    availabilityFactor ⟨false, 15/100, 50⟩ 25 = 0 :=
  ⟨((availabilityFactor_cases ⟨true, 15/100, 50⟩ 25).1 rfl).trans
      (by
        have hv : ((25 : ℕ) : ℚ) / (⟨true, 15/100, 50⟩ : PriceBias).fullBiasAt = 1/2 := by
          norm_num
        rw [hv, min_eq_right (by norm_num : (1 : ℚ)/2 ≤ 1)]),
   (availabilityFactor_cases ⟨false, 15/100, 50⟩ 25).2 rfl⟩

/-- C2 counterexample: with the bias disabled, `fullBiasAt = 50` and 25 raw
candidates, the code yields `0`, not `min(1, 25/50) = 0.5`: the claim's
formula does not hold for every request. -/
theorem availabilityFactor_counterexample :
    availabilityFactor ⟨false, 15/100, 50⟩ 25 ≠ min 1 ((25 : ℚ) / 50) := by
  have h1 : availabilityFactor ⟨false, 15/100, 50⟩ 25 = 0 := by
    simp [availabilityFactor]
  rw [h1, min_eq_right (by norm_num : (25 : ℚ) / 50 ≤ 1)]
  norm_num

/-- C8: whenever the override string fails to parse, resolution returns the
base configuration completely unchanged, records the warning, and (being a
total function) propagates no exception. -/
theorem resolveConfig_badString (parseJSON : String → Option AlgoOverride)
    (base : AlgorithmConfig) (s : String) (h : parseJSON s = none) :
    resolveConfig parseJSON base (some (CustomAlgo.str s)) = ⟨base, true⟩ := by
  simp [resolveConfig, parseCustom, h]

/-- The malformed override string of the spec's example. -/
def badJson : String :=
  "\x7bbad json"

/-- C8 witness: the spec's example string under a parse function that rejects
it leaves the fallback defaults untouched and records the warning. -/
theorem resolveConfig_badString_witness :
    resolveConfig (fun _ => none) fallbackDefaults (some (CustomAlgo.str badJson)) =
      ⟨fallbackDefaults, true⟩ :=
  resolveConfig_badString (fun _ => none) fallbackDefaults badJson rfl

/-- `slice(0, k)` at a natural-number `k` is plain truncation. -/
theorem jsSlice_natCast {α : Type _} (n : ℕ) (l : List α) :
    jsSlice (n : ℚ) l = l.take n := by
  have he : jsTrunc (n : ℚ) = (n : ℤ) := by
    simp [jsTrunc, Nat.cast_nonneg]
  simp only [jsSlice, he]
  rw [if_neg (by omega : ¬ ((n : ℤ) < 0))]
  have ht : (min (n : ℤ) (l.length : ℤ)).toNat = min n l.length := by omega
  rw [ht]
  exact List.take_eq_take.mpr (by omega)

/-- `slice(0, k)` is empty whenever `k` truncates to 0 (e.g. `k = 0.5`). -/
theorem jsSlice_trunc_zero {α : Type _} (k : ℚ) (hk : jsTrunc k = 0)
    (l : List α) : jsSlice k l = [] := by
  simp only [jsSlice, hk]
  rw [if_neg (by omega : ¬ ((0 : ℤ) < 0))]
  have ht : min (0 : ℤ) (l.length : ℤ) = 0 := by omega
  rw [ht]
  simp

/-- C10 (amended): a falsy numeric limit (absent or the number 0) resolves to
the default 10 and the whole engine output equals that for an omitted limit,
which yields up to 10 results; but zero results CAN be requested: any
non-zero numeric limit whose integer truncation is 0 (such as 0.5) survives
the `||` gate and makes `slice(0, LIMIT)` return an empty list. -/
theorem limit_semantics :
    resolveLimitQ none = 10 ∧ resolveLimitQ (some 0) = 10 ∧
    (∀ (da : AlgorithmConfig) (parseJSON : String → Option AlgoOverride)
       (pid : String) (ca : Option CustomAlgo) (t : TargetRecord)
       (cs : List PropertyRecord) (lo : Option ℚ), lo = none ∨ lo = some 0 →
       getSimilarPropertiesJS da parseJSON ⟨pid, lo, ca⟩ t cs =
         getSimilarPropertiesJS da parseJSON ⟨pid, none, ca⟩ t cs) ∧
    (∀ (da : AlgorithmConfig) (parseJSON : String → Option AlgoOverride)
       (pid : String) (ca : Option CustomAlgo) (t : TargetRecord)
       (cs : List PropertyRecord),
       (getSimilarPropertiesJS da parseJSON ⟨pid, none, ca⟩ t cs).comps.length =
         min 10
           (filterCandidates (resolveConfig parseJSON da ca).config.cutoffs t cs).length) ∧
    (∀ (da : AlgorithmConfig) (parseJSON : String → Option AlgoOverride)
       (pid : String) (ca : Option CustomAlgo) (t : TargetRecord)
       (cs : List PropertyRecord) (q : ℚ), q ≠ 0 → jsTrunc q = 0 →
       (getSimilarPropertiesJS da parseJSON ⟨pid, some q, ca⟩ t cs).comps = []) := by
  refine ⟨rfl, rfl, ?_, ?_, ?_⟩
  · intro da parseJSON pid ca t cs lo h
    rcases h with h | h <;> subst h <;> rfl
  · intro da parseJSON pid ca t cs
    have hs : ∀ l : List ScoredCandidate, jsSlice (10 : ℚ) l = l.take 10 := by
      intro l
      simpa using @jsSlice_natCast ScoredCandidate 10 l
    simp [getSimilarPropertiesJS, resolveLimitQ, hs, List.length_take,
      List.length_insertionSort, List.length_map]
  · intro da parseJSON pid ca t cs q hq htr
    have hql : resolveLimitQ (some q) = q := by
      simp [resolveLimitQ, hq]
    simp [getSimilarPropertiesJS, hql, jsSlice_trunc_zero q htr]

/-- C10 witness: on concrete inputs, `limit = 0` gives exactly the omitted
result, and `limit = 0.5` gives an empty result list. -/
theorem limit_semantics_witness :
    getSimilarPropertiesJS fallbackDefaults (fun _ => none) ⟨"p1", some 0, none⟩
        demoTarget demoCands =
      getSimilarPropertiesJS fallbackDefaults (fun _ => none) ⟨"p1", none, none⟩
        demoTarget demoCands ∧
    (getSimilarPropertiesJS fallbackDefaults (fun _ => none)
        ⟨"p1", some (1/2), none⟩ demoTarget demoCands).comps = [] :=
  ⟨limit_semantics.2.2.1 fallbackDefaults (fun _ => none) "p1" none demoTarget
      demoCands (some 0) (Or.inr rfl),
   limit_semantics.2.2.2.2 fallbackDefaults (fun _ => none) "p1" none demoTarget
      demoCands (1/2) (by norm_num) (by norm_num [jsTrunc])⟩

/-- All eleven demo candidates pass the default filter. -/
theorem demoCands_filter :
    filterCandidates fallbackDefaults.cutoffs demoTarget demoCands = demoCands := by
  rw [filterCandidates, List.filter_eq_self]
  intro r hr
  simp only [demoCands] at hr
  have h2 := List.eq_of_mem_replicate hr
  rw [h2]
  norm_num [passesFilter, truthy, relDiff, fallbackDefaults, demoTarget]

/-- C10 counterexample: a caller-supplied limit of 0.5 is truthy, so it is
NOT treated as omitted; it makes the request return zero results although
eleven candidates pass the filter — zero results can be requested at the
public interface. -/
theorem limit_zero_results_counterexample :
    (getSimilarPropertiesJS fallbackDefaults (fun _ => none)
        ⟨"p1", some (1/2), none⟩ demoTarget demoCands).comps = [] ∧
    (getSimilarPropertiesJS fallbackDefaults (fun _ => none)
        ⟨"p1", some (1/2), none⟩ demoTarget demoCands).totalCandidates = 11 ∧
    (filterCandidates fallbackDefaults.cutoffs demoTarget demoCands).length = 11 := by
  refine ⟨?_, rfl, ?_⟩
  · have hql : resolveLimitQ (some (1/2 : ℚ)) = 1/2 := by
      norm_num [resolveLimitQ]
    have htr : jsTrunc (1/2 : ℚ) = 0 := by
      norm_num [jsTrunc]
    simp only [getSimilarPropertiesJS, hql]
    exact jsSlice_trunc_zero _ htr _
  · rw [demoCands_filter]
    simp [demoCands]

/-- The claim's admission predicate: all four fields present and non-zero,
the three relative differences within their cutoffs, the absolute year
difference within `yearDiff`. -/
def admissible (cutoffs : Cutoffs) (t : TargetRecord) (r : PropertyRecord) : Prop :=
  ∃ a m l y : ℚ,
    r.imprvmainarea = some a ∧ a ≠ 0 ∧
    r.prevvalmarket = some m ∧ m ≠ 0 ∧
    r.prevvalland = some l ∧ l ≠ 0 ∧
    r.imprvyearbuilt = some y ∧ y ≠ 0 ∧
    relDiff a t.imprvmainarea ≤ cutoffs.areaPct ∧
    relDiff m t.prevvalmarket ≤ cutoffs.marketPct ∧
    relDiff l t.prevvalland ≤ cutoffs.landPct ∧
    |y - t.imprvyearbuilt| ≤ cutoffs.yearDiff

/-- The source's filter predicate holds exactly on admissible records. -/
theorem passesFilter_iff (cutoffs : Cutoffs) (t : TargetRecord) (r : PropertyRecord) :
    passesFilter cutoffs t r = true ↔ admissible cutoffs t r := by
  simp only [passesFilter, Bool.and_eq_true, decide_eq_true_eq, truthy_iff, admissible]
  constructor
  · rintro ⟨⟨⟨⟨⟨⟨⟨⟨a, ha, ha0⟩, m, hm, hm0⟩, l, hl, hl0⟩, y, hy, hy0⟩, h1⟩, h2⟩, h3⟩, h4⟩
    exact ⟨a, m, l, y, ha, ha0, hm, hm0, hl, hl0, hy, hy0,
      by simpa [ha] using h1, by simpa [hm] using h2,
      by simpa [hl] using h3, by simpa [hy] using h4⟩
  · rintro ⟨a, m, l, y, ha, ha0, hm, hm0, hl, hl0, hy, hy0, h1, h2, h3, h4⟩
    exact ⟨⟨⟨⟨⟨⟨⟨⟨a, ha, ha0⟩, m, hm, hm0⟩, l, hl, hl0⟩, y, hy, hy0⟩,
      by simpa [ha] using h1⟩, by simpa [hm] using h2⟩,
      by simpa [hl] using h3⟩, by simpa [hy] using h4⟩

/-- C3: the filter returns an order-preserving subsequence of its input, and
membership in the output is exactly membership in the input together with the
four-part admission condition. -/
theorem filterCandidates_spec (cutoffs : Cutoffs) (t : TargetRecord)
    (cs : List PropertyRecord) :
    (filterCandidates cutoffs t cs).Sublist cs ∧
    (∀ r : PropertyRecord,
      r ∈ filterCandidates cutoffs t cs ↔ r ∈ cs ∧ admissible cutoffs t r) := by
  refine ⟨List.filter_sublist cs, fun r => ?_⟩
  rw [filterCandidates, List.mem_filter, passesFilter_iff]

/-- C4: for a candidate whose four fields are present, `baseSimilarity` is the
weighted sum of the three relative differences plus the year weight times the
absolute year gap divided by the constant 100. -/
theorem baseSimilarity_formula (w : Weights) (pb : PriceBias) (af : ℚ)
    (t : TargetRecord) (r : PropertyRecord) (a m l y : ℚ)
    (ha : r.imprvmainarea = some a) (hm : r.prevvalmarket = some m)
    (hl : r.prevvalland = some l) (hy : r.imprvyearbuilt = some y) :
    (scoreCandidate w pb af t r).baseSimilarity =
      w.area * relDiff a t.imprvmainarea +
      w.market * relDiff m t.prevvalmarket +
      w.land * relDiff l t.prevvalland +
      w.year * (|y - t.imprvyearbuilt| / 100) := by
  simp [scoreCandidate, ha, hm, hl, hy]

/-- C4 witness: the formula instantiated on the spec's worked scenario. -/
theorem baseSimilarity_formula_witness :
    (scoreCandidate fallbackDefaults.weights fallbackDefaults.priceBias 0
        demoTarget demoCand).baseSimilarity =
      fallbackDefaults.weights.area * relDiff 2050 demoTarget.imprvmainarea +
      fallbackDefaults.weights.market * relDiff 310000 demoTarget.prevvalmarket +
      fallbackDefaults.weights.land * relDiff 51000 demoTarget.prevvalland +
      fallbackDefaults.weights.year * (|2006 - demoTarget.imprvyearbuilt| / 100) :=
  baseSimilarity_formula fallbackDefaults.weights fallbackDefaults.priceBias 0
    demoTarget demoCand 2050 310000 51000 2006 rfl rfl rfl rfl

/-- C6 (amended): when the bias is enabled the recorded contribution is
`max(0, marketValue/target.marketValue - 1)` — zero at or below the target
price, positive above it (for a positive target price); when disabled it is
0; and with non-negative bias weight and availability factor the final score
never drops below `baseSimilarity`. -/
theorem priceBias_contribution (w : Weights) (pb : PriceBias) (af : ℚ)
    (t : TargetRecord) (r : PropertyRecord) :
    (pb.enabled = true →
      (scoreCandidate w pb af t r).priceBias =
        max 0 (r.prevvalmarket.getD 0 / t.prevvalmarket - 1)) ∧
    (pb.enabled = false → (scoreCandidate w pb af t r).priceBias = 0) ∧
    (0 ≤ pb.weight → 0 ≤ af →
      (scoreCandidate w pb af t r).baseSimilarity ≤
        (scoreCandidate w pb af t r).similarity) ∧
    (pb.enabled = true → 0 < t.prevvalmarket →
      r.prevvalmarket.getD 0 ≤ t.prevvalmarket →
      (scoreCandidate w pb af t r).priceBias = 0) ∧
    (pb.enabled = true → 0 < t.prevvalmarket →
      t.prevvalmarket < r.prevvalmarket.getD 0 →
      0 < (scoreCandidate w pb af t r).priceBias) := by
  refine ⟨?_, ?_, ?_, ?_, ?_⟩
  · intro h
    simp [scoreCandidate, h]
  · intro h
    simp [scoreCandidate, h]
  · intro hw haf
    have hpbv : 0 ≤ (if pb.enabled then
        max 0 (r.prevvalmarket.getD 0 / t.prevvalmarket - 1) else 0) := by
      split
      · exact le_max_left 0 _
      · exact le_refl 0
    simp only [scoreCandidate]
    exact le_add_of_nonneg_right (mul_nonneg (mul_nonneg haf hw) hpbv)
  · intro he htm hle
    have hx : r.prevvalmarket.getD 0 / t.prevvalmarket - 1 ≤ 0 := by
      rw [sub_nonpos, div_le_one htm]
      exact hle
    simp [scoreCandidate, he, max_eq_left hx]
  · intro he htm hlt
    have hx : 0 < r.prevvalmarket.getD 0 / t.prevvalmarket - 1 :=
      sub_pos.mpr ((one_lt_div htm).mpr hlt)
    simp only [scoreCandidate, he, if_true]
    exact lt_of_lt_of_le hx (le_max_right 0 _)

/-- C6 witness: on the worked scenario with the default (enabled) bias, the
contribution equals `max(0, 310000/300000 - 1)`, the score is at least the
base similarity, and the pricier candidate gets a positive contribution. -/
theorem priceBias_contribution_witness :
    (scoreCandidate fallbackDefaults.weights fallbackDefaults.priceBias (1/2)
        demoTarget demoCand).priceBias = max 0 ((310000 : ℚ) / 300000 - 1) ∧
    (scoreCandidate fallbackDefaults.weights fallbackDefaults.priceBias (1/2)
        demoTarget demoCand).baseSimilarity ≤
      (scoreCandidate fallbackDefaults.weights fallbackDefaults.priceBias (1/2)
        demoTarget demoCand).similarity ∧
    0 < (scoreCandidate fallbackDefaults.weights fallbackDefaults.priceBias (1/2)
        demoTarget demoCand).priceBias := by
  have h := priceBias_contribution fallbackDefaults.weights fallbackDefaults.priceBias
    (1/2) demoTarget demoCand
  refine ⟨?_, h.2.2.1 (by norm_num [fallbackDefaults]) (by norm_num),
    h.2.2.2.2 rfl (by norm_num [demoTarget]) (by norm_num [demoTarget, demoCand])⟩
  have h1 := h.1 rfl
  simpa [demoCand, demoTarget] using h1

/-- C6 counterexample: with the bias disabled, the recorded contribution is 0
even for a pricier candidate, so it does not equal
`max(0, marketValue/target.marketValue - 1)` for every scored candidate. -/
theorem priceBias_contribution_counterexample :
    (scoreCandidate fallbackDefaults.weights ⟨false, 15/100, 50⟩ 0
        demoTarget demoCand).priceBias ≠
      max 0 (demoCand.prevvalmarket.getD 0 / demoTarget.prevvalmarket - 1) := by
  have h0 : (scoreCandidate fallbackDefaults.weights ⟨false, 15/100, 50⟩ 0
      demoTarget demoCand).priceBias = 0 := by
    simp [scoreCandidate]
  rw [h0]
  have hx : (0 : ℚ) < demoCand.prevvalmarket.getD 0 / demoTarget.prevvalmarket - 1 := by
    norm_num [demoCand, demoTarget]
  exact (lt_of_lt_of_le hx (le_max_right 0 _)).ne

/-- A scored candidate used to exercise tie stability. -/
def demoScoredA : ScoredCandidate :=
  ⟨⟨"a", none, none, none, none⟩, 1, 1, 0⟩

/-- A second scored candidate with the same similarity as `demoScoredA`. -/
def demoScoredB : ScoredCandidate :=
  ⟨⟨"b", none, none, none, none⟩, 1, 0, 0⟩

/-- C5: the ranked output is sorted ascending by similarity, has length
`min(limit, filteredCount)`, is the `limit`-prefix of the stable sort (so
ties keep their input order: any equal-similarity pair that appears in input
order stays in that order in the sorted sequence), and an unspecified limit
resolves to 10. -/
theorem rankCandidates_spec (scored : List ScoredCandidate) (lo : Option ℕ) :
    List.Sorted simLE (rankCandidates (resolveLimit lo) scored) ∧
    (rankCandidates (resolveLimit lo) scored).length =
      min (resolveLimit lo) scored.length ∧
    (∀ a b : ScoredCandidate, a.similarity = b.similarity →
      List.Sublist [a, b] scored →
      List.Sublist [a, b] (scored.insertionSort simLE)) ∧
    rankCandidates (resolveLimit lo) scored =
      (scored.insertionSort simLE).take (resolveLimit lo) ∧
    resolveLimit none = 10 := by
  refine ⟨?_, ?_, ?_, rfl, rfl⟩
  · exact List.Pairwise.sublist (List.take_sublist _ _)
      (List.sorted_insertionSort simLE scored)
  · simp [rankCandidates, List.length_take, List.length_insertionSort]
  · intro a b hab hsub
    exact List.pair_sublist_insertionSort hab.le hsub

/-- C5 witness: two equal-similarity candidates given in input order remain
in that order after sorting. -/
theorem rankCandidates_spec_witness :
    List.Sublist [demoScoredA, demoScoredB]
      (List.insertionSort simLE [demoScoredA, demoScoredB]) :=
  (rankCandidates_spec [demoScoredA, demoScoredB] none).2.2.1 demoScoredA demoScoredB
    rfl (List.Sublist.refl _)

/-- C1 (amended): the result's `totalCandidates` is the pre-filter candidate
count, but `filteredCandidates` is the length of the ranked, limit-capped
list — `min(limit, number passing the filter)` — not the filter-pass count
itself; it always equals `comps.length`. -/
theorem result_counts (da : AlgorithmConfig)
    (parseJSON : String → Option AlgoOverride) (opts : EngineOptions)
    (t : TargetRecord) (cs : List PropertyRecord) :
    (getSimilarProperties da parseJSON opts t cs).totalCandidates = cs.length ∧
    (getSimilarProperties da parseJSON opts t cs).filteredCandidates =
      min (resolveLimit opts.limit)
        (filterCandidates (resolveConfig parseJSON da opts.customAlgo).config.cutoffs
          t cs).length ∧
    (getSimilarProperties da parseJSON opts t cs).comps.length =
      (getSimilarProperties da parseJSON opts t cs).filteredCandidates := by
  refine ⟨rfl, ?_, rfl⟩
  simp [getSimilarProperties, rankCandidates, List.length_take,
    List.length_insertionSort, List.length_map]

/-- C1 counterexample: with eleven candidates that all pass the filter and
the default limit 10, the result reports `filteredCandidates = 10`, not the
filter-pass count 11 — the reported count is NOT independent of the limit. -/
theorem result_counts_counterexample :
    (getSimilarProperties fallbackDefaults (fun _ => none) ⟨"p1", none, none⟩
        demoTarget demoCands).filteredCandidates ≠
      (filterCandidates fallbackDefaults.cutoffs demoTarget demoCands).length := by
  have hp : passesFilter fallbackDefaults.cutoffs demoTarget
      ⟨"c", some 2000, some 300000, some 50000, some 2005⟩ = true := by
    norm_num [passesFilter, truthy, relDiff, fallbackDefaults, demoTarget]
  have hfil : filterCandidates fallbackDefaults.cutoffs demoTarget demoCands =
      demoCands := by
    rw [filterCandidates, List.filter_eq_self]
    intro r hr
    simp only [demoCands] at hr
    have h2 := List.eq_of_mem_replicate hr
    rw [h2]
    exact hp
  have hlen : (getSimilarProperties fallbackDefaults (fun _ => none)
      ⟨"p1", none, none⟩ demoTarget demoCands).filteredCandidates =
      min 10 (filterCandidates fallbackDefaults.cutoffs demoTarget demoCands).length := by
    simp [getSimilarProperties, rankCandidates, resolveLimit, resolveConfig,
      List.length_take, List.length_insertionSort, List.length_map]
  rw [hlen, hfil]
  simp [demoCands]

/-- C7: merging an override object replaces, per group, exactly the keys the
override carries; all other keys and all absent groups keep their base
values. -/
theorem resolveConfig_merge (parseJSON : String → Option AlgoOverride)
    (base : AlgorithmConfig) (o : AlgoOverride) :
    (o.weights = none →
      (resolveConfig parseJSON base (some (CustomAlgo.obj o))).config.weights =
        base.weights) ∧
    (o.cutoffs = none →
      (resolveConfig parseJSON base (some (CustomAlgo.obj o))).config.cutoffs =
        base.cutoffs) ∧
    (o.priceBias = none →
      (resolveConfig parseJSON base (some (CustomAlgo.obj o))).config.priceBias =
        base.priceBias) ∧
    (∀ w : WeightsOverride, o.weights = some w →
      ((w.area = none →
        (resolveConfig parseJSON base (some (CustomAlgo.obj o))).config.weights.area =
          base.weights.area) ∧
       (∀ v : ℚ, w.area = some v →
        (resolveConfig parseJSON base (some (CustomAlgo.obj o))).config.weights.area = v)) ∧
      ((w.market = none →
        (resolveConfig parseJSON base (some (CustomAlgo.obj o))).config.weights.market =
          base.weights.market) ∧
       (∀ v : ℚ, w.market = some v →
        (resolveConfig parseJSON base (some (CustomAlgo.obj o))).config.weights.market = v)) ∧
      ((w.land = none →
        (resolveConfig parseJSON base (some (CustomAlgo.obj o))).config.weights.land =
          base.weights.land) ∧
       (∀ v : ℚ, w.land = some v →
        (resolveConfig parseJSON base (some (CustomAlgo.obj o))).config.weights.land = v)) ∧
      ((w.year = none →
        (resolveConfig parseJSON base (some (CustomAlgo.obj o))).config.weights.year =
          base.weights.year) ∧
       (∀ v : ℚ, w.year = some v →
        (resolveConfig parseJSON base (some (CustomAlgo.obj o))).config.weights.year = v))) ∧
    (∀ c : CutoffsOverride, o.cutoffs = some c →
      ((c.areaPct = none →
        (resolveConfig parseJSON base (some (CustomAlgo.obj o))).config.cutoffs.areaPct =
          base.cutoffs.areaPct) ∧
       (∀ v : ℚ, c.areaPct = some v →
        (resolveConfig parseJSON base (some (CustomAlgo.obj o))).config.cutoffs.areaPct = v)) ∧
      ((c.marketPct = none →
        (resolveConfig parseJSON base (some (CustomAlgo.obj o))).config.cutoffs.marketPct =
          base.cutoffs.marketPct) ∧
       (∀ v : ℚ, c.marketPct = some v →
        (resolveConfig parseJSON base (some (CustomAlgo.obj o))).config.cutoffs.marketPct = v)) ∧
      ((c.landPct = none →
        (resolveConfig parseJSON base (some (CustomAlgo.obj o))).config.cutoffs.landPct =
          base.cutoffs.landPct) ∧
       (∀ v : ℚ, c.landPct = some v →
        (resolveConfig parseJSON base (some (CustomAlgo.obj o))).config.cutoffs.landPct = v)) ∧
      ((c.yearDiff = none →
        (resolveConfig parseJSON base (some (CustomAlgo.obj o))).config.cutoffs.yearDiff =
          base.cutoffs.yearDiff) ∧
       (∀ v : ℚ, c.yearDiff = some v →
        (resolveConfig parseJSON base (some (CustomAlgo.obj o))).config.cutoffs.yearDiff = v))) ∧
    (∀ pbo : PriceBiasOverride, o.priceBias = some pbo →
      ((pbo.enabled = none →
        (resolveConfig parseJSON base (some (CustomAlgo.obj o))).config.priceBias.enabled =
          base.priceBias.enabled) ∧
       (∀ v : Bool, pbo.enabled = some v →
        (resolveConfig parseJSON base (some (CustomAlgo.obj o))).config.priceBias.enabled = v)) ∧
      ((pbo.weight = none →
        (resolveConfig parseJSON base (some (CustomAlgo.obj o))).config.priceBias.weight =
          base.priceBias.weight) ∧
       (∀ v : ℚ, pbo.weight = some v →
        (resolveConfig parseJSON base (some (CustomAlgo.obj o))).config.priceBias.weight = v)) ∧
      ((pbo.fullBiasAt = none →
        (resolveConfig parseJSON base (some (CustomAlgo.obj o))).config.priceBias.fullBiasAt =
          base.priceBias.fullBiasAt) ∧
       (∀ v : ℚ, pbo.fullBiasAt = some v →
        (resolveConfig parseJSON base (some (CustomAlgo.obj o))).config.priceBias.fullBiasAt = v))) := by
  refine ⟨?_, ?_, ?_, ?_, ?_, ?_⟩
  · intro h
    simp [resolveConfig, parseCustom, h]
  · intro h
    simp [resolveConfig, parseCustom, h]
  · intro h
    simp [resolveConfig, parseCustom, h]
  · intro w hw
    exact ⟨⟨fun h => by simp [resolveConfig, parseCustom, hw, mergeWeights, h],
            fun v h => by simp [resolveConfig, parseCustom, hw, mergeWeights, h]⟩,
           ⟨fun h => by simp [resolveConfig, parseCustom, hw, mergeWeights, h],
            fun v h => by simp [resolveConfig, parseCustom, hw, mergeWeights, h]⟩,
           ⟨fun h => by simp [resolveConfig, parseCustom, hw, mergeWeights, h],
            fun v h => by simp [resolveConfig, parseCustom, hw, mergeWeights, h]⟩,
           ⟨fun h => by simp [resolveConfig, parseCustom, hw, mergeWeights, h],
            fun v h => by simp [resolveConfig, parseCustom, hw, mergeWeights, h]⟩⟩
  · intro c hc
    exact ⟨⟨fun h => by simp [resolveConfig, parseCustom, hc, mergeCutoffs, h],
            fun v h => by simp [resolveConfig, parseCustom, hc, mergeCutoffs, h]⟩,
           ⟨fun h => by simp [resolveConfig, parseCustom, hc, mergeCutoffs, h],
            fun v h => by simp [resolveConfig, parseCustom, hc, mergeCutoffs, h]⟩,
           ⟨fun h => by simp [resolveConfig, parseCustom, hc, mergeCutoffs, h],
            fun v h => by simp [resolveConfig, parseCustom, hc, mergeCutoffs, h]⟩,
           ⟨fun h => by simp [resolveConfig, parseCustom, hc, mergeCutoffs, h],
            fun v h => by simp [resolveConfig, parseCustom, hc, mergeCutoffs, h]⟩⟩
  · intro pbo hpb
    exact ⟨⟨fun h => by simp [resolveConfig, parseCustom, hpb, mergePriceBias, h],
            fun v h => by simp [resolveConfig, parseCustom, hpb, mergePriceBias, h]⟩,
           ⟨fun h => by simp [resolveConfig, parseCustom, hpb, mergePriceBias, h],
            fun v h => by simp [resolveConfig, parseCustom, hpb, mergePriceBias, h]⟩,
           ⟨fun h => by simp [resolveConfig, parseCustom, hpb, mergePriceBias, h],
            fun v h => by simp [resolveConfig, parseCustom, hpb, mergePriceBias, h]⟩⟩

/-- The spec's example override: weights carrying only `area = 0.9`. -/
def demoOverride : AlgoOverride :=
  ⟨some ⟨some (9/10), none, none, none⟩, none, none⟩

/-- C7 witness: merging the example override onto the fallback defaults sets
`weights.area` to 0.9, keeps `weights.market`, and keeps the whole absent
`cutoffs` group. -/
theorem resolveConfig_merge_witness :
    (resolveConfig (fun _ => none) fallbackDefaults
        (some (CustomAlgo.obj demoOverride))).config.weights.area = 9/10 ∧
    (resolveConfig (fun _ => none) fallbackDefaults
        (some (CustomAlgo.obj demoOverride))).config.weights.market =
      fallbackDefaults.weights.market ∧
    (resolveConfig (fun _ => none) fallbackDefaults
        (some (CustomAlgo.obj demoOverride))).config.cutoffs =
      fallbackDefaults.cutoffs := by
  have h := resolveConfig_merge (fun _ => none) fallbackDefaults demoOverride
  exact ⟨(h.2.2.2.1 ⟨some (9/10), none, none, none⟩ rfl).1.2 (9/10) rfl,
         (h.2.2.2.1 ⟨some (9/10), none, none, none⟩ rfl).2.1.1 rfl,
         h.2.1 rfl⟩

end SimilarityEngine
